import Mathlib

/-!
# Verification of the terrain tile streaming and caching engine

Shallow embedding of the terrain subsystem of the repository:

* `CesiumTerrain` (src/js/terrain/cesiumterrain.js and the variant in
  src/unnamed/part_000): elevation sampling with a quantized-key cache,
  tile creation guarded by tracked/loading sets, and a per-frame `update`
  pass that requests tiles inside the view distance and evicts tiles
  beyond 1.5 times the view distance.
* `Tile` (first section of src/unnamed/part_001): per-tile lifecycle with
  `loading`/`loaded` flags, a distance-based `update`, and a
  callback-chained `load` of geometry and texture.
* `SimpleTerrain` (second section of src/unnamed/part_001): procedural
  sine-based tile heights and elevation queries.

JavaScript numbers are modelled as exact rationals (`ℚ`); `Math.sin` and
real-valued height functions are modelled over `ℝ`.  Asynchronous
operations are modelled by their synchronous effect together with
explicit outcome parameters for the external collaborators (elevation
provider, geometry loader, texture loader), which may succeed or fail.
`Math.sqrt(d) OP t` comparisons are embedded as the equivalent
square-free comparisons over `ℚ` (noted at each use site).
-/

namespace TerrainProof

/-! ## Definitions -/

/-- JS `Math.round`: rounds half toward positive infinity. -/
def jsRound (x : ℚ) : Int := ⌊x + 1/2⌋

/-- Integer range `[lo, hi]` as produced by `for (let d = lo; d <= hi; d++)`. -/
def intRange (lo hi : Int) : List Int :=
  (List.range (hi + 1 - lo).toNat).map (fun (k : Nat) => lo + (k : Int))

/--
Quantization performed by `x.toFixed(1)` (ECMA-262): for negative `x` the
string is `"-"` followed by `toFixed` of `-x`; the magnitude is rounded to
tenths, ties taking the larger value.  The pair (sign flag, tenths) fully
determines the produced key substring, so it serves as the cache key
component.
-/
def kq (x : ℚ) : Bool × Int :=
  if x < 0 then (true, ⌊-(10 * x) + 1/2⌋) else (false, ⌊10 * x + 1/2⌋)

/-- Cache key built by `` `${east.toFixed(1)},${north.toFixed(1)}` `` in
`CesiumTerrain.getElevationAtUTM` (src/unnamed/part_000, line 71).  The
comma-joined string is injective in this pair, so the pair is used as the
key directly. -/
def elevKey (e n : ℚ) : (Bool × Int) × (Bool × Int) := (kq e, kq n)

/-- State of the elevation subsystem: the `sampledPositions` cache and a
count of calls issued so far to the external elevation provider
(`Cesium.sampleTerrainMostDetailed`). -/
structure ElevState where
  cache : List (((Bool × Int) × (Bool × Int)) × ℚ)
  calls : Nat

/-- `Map.get`/`Map.has` over the association list modelling
`sampledPositions` (entries are only ever inserted at absent keys, so the
list never holds duplicate keys). -/
def lookupElev : List (((Bool × Int) × (Bool × Int)) × ℚ) →
    ((Bool × Int) × (Bool × Int)) → Option ℚ
  | [], _ => none
  | (k, v) :: rest, key => if k = key then some v else lookupElev rest key

/--
`CesiumTerrain.getElevationAtUTM(east, north)` (src/unnamed/part_000,
lines 70–96).  `avail` models the `this.terrainProvider` null check;
`provider` is the external elevation service as an oracle indexed by the
running call count (`none` models a rejected promise, i.e. the `catch`
path), with the UTM→lat/lon conversion folded into the oracle.  On a cache
hit the cached value is returned and no provider call is issued.  On a
miss with the provider unavailable, `0` is returned without a call.
Otherwise one provider call is issued; on success the value is stored
under the quantized key and returned (`height || 0` is the identity on
numeric heights), and on failure `0` is returned and nothing is stored.
-/
def getElevationAtUTM (avail : Bool) (provider : Nat → Option ℚ) (e n : ℚ)
    (s : ElevState) : ℚ × ElevState :=
  match lookupElev s.cache (elevKey e n) with
  | some v => (v, s)
  | none =>
    if avail = false then (0, s)
    else
      match provider s.calls with
      | some h => (h, ⟨(elevKey e n, h) :: s.cache, s.calls + 1⟩)
      | none => (0, { s with calls := s.calls + 1 })

/-- Provider oracle that rejects on its first call and succeeds with
elevation 5 afterwards. -/
def failThenSucceed : Nat → Option ℚ :=
  fun k => if k = 0 then none else some 5

/-- Observable state of one `Tile` (src/unnamed/part_001, lines 14–36).
`centerX`/`centerY` are the bounding-sphere center (lower-left corner plus
half the tile extents); the resource flags record which owned resources
— texture (`material.map`), material data, geometry buffers and the
spatial index (`geometry.boundsTree`) — currently hold live data. -/
structure TileState where
  tileName : String
  centerX : ℚ
  centerY : ℚ
  loading : Bool
  loaded : Bool
  wireframe : Bool
  inScene : Bool
  mapLive : Bool
  materialLive : Bool
  geometryLive : Bool
  boundsTreeLive : Bool

/--
`Tile.update(camera, showWireFrame)` (src/unnamed/part_001, lines 38–84).
Computes the squared planar distance from the bounding-sphere center to
the camera and compares it with `camera.far * camera.far` (the source
never takes a square root here); sets the wireframe flag when loaded;
if visible and neither loading nor loaded, marks the tile `loading` and
appends it to the fetch queue; if not visible, not loading and loaded,
removes the mesh from the scene, disposes texture, material and geometry,
drops the bounds tree and clears `loaded`.
-/
def tileUpdate (camX camY far : ℚ) (showWireFrame : Bool) (t : TileState)
    (queue : List String) : TileState × List String :=
  let dist := (t.centerX - camX) * (t.centerX - camX) +
    (t.centerY - camY) * (t.centerY - camY)
  let visible := decide (dist < far * far)
  let t1 := if t.loaded then { t with wireframe := showWireFrame } else t
  let step2 : TileState × List String :=
    if visible && !t1.loading && !t1.loaded then
      ({ t1 with loading := true }, queue ++ [t1.tileName])
    else (t1, queue)
  let t2 := step2.1
  let t3 :=
    if !visible && !t2.loading && t2.loaded then
      { t2 with
        inScene := false
        mapLive := false
        materialLive := false
        geometryLive := false
        boundsTreeLive := false
        loaded := false }
    else t2
  (t3, step2.2)

/--
Net effect of `Tile.load()` (src/unnamed/part_001, lines 86–133) as a
function of the outcomes of the two external fetches.  The GLB geometry
fetch is issued first; on its error callback only `loading` is cleared.
On geometry success the new geometry is installed, a bounds-tree build is
started (modelled as resolved), and only then the KTX2 texture fetch is
issued; on its error callback only `loading` is cleared.  On texture
success the texture is installed into the material (which is re-uploaded
via `needsUpdate`), the mesh is added to the scene, and the tile becomes
`loaded`.
-/
def tileLoad (geomOk texOk : Bool) (t : TileState) : TileState :=
  if !geomOk then { t with loading := false }
  else
    let t1 := { t with geometryLive := true, boundsTreeLive := true }
    if !texOk then { t1 with loading := false }
    else
      { t1 with
        mapLive := true
        materialLive := true
        inScene := true
        loading := false
        loaded := true }

/-- A tile in the `Loading` state holding no resources, used as a
concrete instance. -/
def loadingTileAtOrigin : TileState :=
  ⟨"0-0", 0, 0, true, false, false, false, false, false, false, false⟩

/-- A tile in the `Loaded` state holding all of its resources, used as a
concrete instance. -/
def loadedTileAtOrigin : TileState :=
  ⟨"0-0", 0, 0, false, true, false, true, true, true, true, true⟩

/-- Events observable during one `Tile.load()` run, in program order. -/
inductive LoadEvent where
  | geomRequested
  | geomLoaded
  | geomFailed
  | bvhRequested
  | texRequested
  | texLoaded
  | texFailed
  | sceneAdd
  | setLoaded
deriving DecidableEq

/--
Event trace of `Tile.load()` (src/unnamed/part_001, lines 86–133) as a
function of the two fetch outcomes.  The structure mirrors the source's
callback nesting: `gltfLoader.load` is issued first; the KTX2 texture
request appears inside the GLB success callback, after the geometry has
arrived and the bounds-tree build has been started; the scene add and the
transition to `loaded` appear inside the texture success callback.
-/
def loadTrace (geomOk texOk : Bool) : List LoadEvent :=
  LoadEvent.geomRequested ::
    (if geomOk then
      LoadEvent.geomLoaded :: LoadEvent.bvhRequested :: LoadEvent.texRequested ::
        (if texOk then
          [LoadEvent.texLoaded, LoadEvent.sceneAdd, LoadEvent.setLoaded]
         else [LoadEvent.texFailed])
     else [LoadEvent.geomFailed])

/-- Decimal digits of an integer as JS template-literal interpolation
`` `${i}` `` renders it (integral numbers print without a decimal
point). -/
def intChars (i : Int) : List Char :=
  if i < 0 then '-' :: Nat.toDigits 10 i.natAbs else Nat.toDigits 10 i.natAbs

/-- Tile key `` `${centerEast}-${centerNorth}` `` from
`CesiumTerrain.createTerrainTile` (src/js/terrain/cesiumterrain.js,
line 119), as a character list. -/
def tileKey (e n : Int) : List Char := intChars e ++ '-' :: intChars n

/-- JS `String.prototype.split('-')` on a character list. -/
def splitOnDash : List Char → List (List Char)
  | [] => [[]]
  | c :: rest =>
    if c = '-' then [] :: splitOnDash rest
    else
      match splitOnDash rest with
      | [] => [[c]]
      | seg :: segs => (c :: seg) :: segs

/-- Numeric value of a digit string. -/
def natOfDigits (cs : List Char) : Nat :=
  cs.foldl (fun acc c => acc * 10 + (c.toNat - '0'.toNat)) 0

/-- JS `Number(segment)` for the segments that arise from splitting a
tile key: the empty string yields `0` (as `Number("")` does) and a digit
string yields its decimal value. -/
def jsNumSeg (cs : List Char) : ℚ := (natOfDigits cs : ℚ)

/-- `const [east, north] = key.split('-').map(Number)` from the eviction
loop (src/js/terrain/cesiumterrain.js, line 284): destructuring takes the
first two segments of the split, whatever their number. -/
def parseTileKey (key : List Char) : ℚ × ℚ :=
  ((splitOnDash key).getD 0 [] |> jsNumSeg, (splitOnDash key).getD 1 [] |> jsNumSeg)

/--
Eviction test from the per-tile loop (src/js/terrain/cesiumterrain.js,
lines 283–290): the tile's coordinates are re-derived from its key via
`split('-')`, and the tile is evicted when
`Math.sqrt(dist2) > viewDistance * 1.5`, embedded square-free as
`viewDistance * 1.5 < 0 ∨ (viewDistance * 1.5)^2 < dist2` (equivalent
because `dist2 ≥ 0`).
-/
def evictCond (camE camN viewDistance : ℚ) (key : List Char) : Bool :=
  let p := parseTileKey key
  let dist2 := (p.1 - camE) ^ 2 + (p.2 - camN) ^ 2
  decide (viewDistance * 1.5 < 0) || decide ((viewDistance * 1.5) ^ 2 < dist2)

/-- Eviction portion of `CesiumTerrain.update`
(src/js/terrain/cesiumterrain.js, lines 281–301): first component the
keys kept in `this.tiles`, second the keys removed (whose meshes are
taken out of the scene and disposed). -/
def evictPass (camE camN viewDistance : ℚ) (tiles : List (List Char)) :
    List (List Char) × List (List Char) :=
  (tiles.filter (fun key => !evictCond camE camN viewDistance key),
   tiles.filter (fun key => evictCond camE camN viewDistance key))

/--
Tile-request portion of `CesiumTerrain.update`
(src/js/terrain/cesiumterrain.js, lines 254–279), with the tile size and
view distance as parameters (the source fixes `tileSize = 12750` and
`viewDistance = min(camera.far, 50000)`; the spec treats these constants
as configuration).  The center tile rounds each camera axis to the
nearest multiple of `tileSize`; candidates range over the square
`±⌈viewDistance / tileSize⌉`; a candidate is requested when
`Math.sqrt(dist2) < viewDistance`, embedded square-free as
`0 < viewDistance ∧ dist2 < viewDistance^2`.
-/
def loadPass (camE camN viewDistance : ℚ) (tileSize : Int) : List (Int × Int) :=
  let tilesNeeded : Int := ⌈viewDistance / (tileSize : ℚ)⌉
  let centerTileEast : Int := jsRound (camE / (tileSize : ℚ)) * tileSize
  let centerTileNorth : Int := jsRound (camN / (tileSize : ℚ)) * tileSize
  (intRange (-tilesNeeded) tilesNeeded).flatMap (fun dy =>
    (intRange (-tilesNeeded) tilesNeeded).filterMap (fun dx =>
      let tileEast := centerTileEast + dx * tileSize
      let tileNorth := centerTileNorth + dy * tileSize
      let dist2 := ((tileEast : ℚ) - camE) ^ 2 + ((tileNorth : ℚ) - camN) ^ 2
      if 0 < viewDistance ∧ dist2 < viewDistance ^ 2 then
        some (tileEast, tileNorth)
      else none))

/-- State of the `CesiumTerrain` orchestrator: the tracked-tile map
`this.tiles` (represented by its key list), the `this.loadingTiles` set,
and the keys of tile meshes currently attached to the scene. -/
structure TerrainState where
  tiles : List (List Char)
  loadingTiles : List (List Char)
  scene : List (List Char)

/-- Synchronous prefix of `CesiumTerrain.createTerrainTile`
(src/js/terrain/cesiumterrain.js, lines 118–126): a request for a key
already in the tracked map or the loading set returns immediately;
otherwise the key is added to the loading set (the asynchronous remainder
suspends at its first `await`). -/
def createTerrainTile (s : TerrainState) (key : List Char) : TerrainState :=
  if key ∈ s.tiles ∨ key ∈ s.loadingTiles then s
  else { s with loadingTiles := s.loadingTiles ++ [key] }

/-- `Map.set` key behavior: the key list is unchanged when the key is
present (the value is overwritten), else the key is appended. -/
def insertKey (l : List (List Char)) (k : List Char) : List (List Char) :=
  if k ∈ l then l else l ++ [k]

/-- Completion of `createTerrainTile`'s asynchronous remainder
(src/js/terrain/cesiumterrain.js, lines 128–192): on success the mesh is
added to the scene and the key is stored in `this.tiles`; in either case
the `finally` block removes the key from `this.loadingTiles`. -/
def finishTerrainTile (s : TerrainState) (key : List Char) (success : Bool) :
    TerrainState :=
  let s1 := if success
    then { s with tiles := insertKey s.tiles key, scene := insertKey s.scene key }
    else s
  { s1 with loadingTiles := s1.loadingTiles.erase key }

/--
One `CesiumTerrain.update(camera)` pass
(src/js/terrain/cesiumterrain.js, lines 242–302): the request loop runs
the synchronous prefix of `createTerrainTile` for every candidate inside
the view distance (`tileSize = 12750`,
`viewDistance = min(camera.far, 50000)`), then the eviction loop removes
every tracked tile whose re-parsed key coordinates lie beyond
`1.5 × viewDistance`, detaching its mesh from the scene.  (The wireframe
toggle applied to retained meshes touches only material display state,
which this state does not track.)
-/
def updateCesium (camE camN far : ℚ) (s : TerrainState) : TerrainState :=
  let viewDistance : ℚ := min far 50000
  let s1 := (loadPass camE camN viewDistance 12750).foldl
    (fun st p => createTerrainTile st (tileKey p.1 p.2)) s
  { tiles := (evictPass camE camN viewDistance s1.tiles).1,
    loadingTiles := s1.loadingTiles,
    scene := s1.scene.filter
      (fun k => !(decide (k ∈ (evictPass camE camN viewDistance s1.tiles).2))) }

/-- Height function of `SimpleTerrain` (src/unnamed/part_001, second
section, line 204 and line 235):
`200 * Math.sin(x / 3000) * Math.sin(y / 3000) + 500`. -/
noncomputable def simpleHeight (x y : ℝ) : ℝ :=
  200 * Real.sin (x / 3000) * Real.sin (y / 3000) + 500

/-- Local x-coordinate of grid vertex column `i` of
`PlaneGeometry(10000, 10000, 32, 32)`: columns run from `-5000` to
`5000` in steps of `312.5`. -/
def planeLocalX (i : Fin 33) : ℚ := -5000 + ((i : ℕ) : ℚ) * (10000 / 32)

/-- Local y-coordinate of grid vertex row `j` of
`PlaneGeometry(10000, 10000, 32, 32)`: rows run from `5000` down to
`-5000` in steps of `312.5`. -/
def planeLocalY (j : Fin 33) : ℚ := 5000 - ((j : ℕ) : ℚ) * (10000 / 32)

/-- Final height of grid vertex `(i, j)` of the `SimpleTerrain` tile
centered at `(centerEast, centerNorth)`
(src/unnamed/part_001, lines 199–206): the source evaluates the height
function at the vertex's tile-local coordinates `(x, y)` taken from the
`PlaneGeometry` position attribute — the tile center enters only the mesh
translation, not the height. -/
noncomputable def simpleVertexHeight (_centerEast _centerNorth : ℚ)
    (i j : Fin 33) : ℝ :=
  simpleHeight ((planeLocalX i : ℚ) : ℝ) ((planeLocalY j : ℚ) : ℝ)

/-- `SimpleTerrain.getElevationAtUTM(east, north)`
(src/unnamed/part_001, lines 233–237): the same closed-form function,
evaluated at the query's world coordinates. -/
noncomputable def simpleGetElevationAtUTM (east north : ℝ) : ℝ :=
  simpleHeight east north

/-- World (planar) east coordinate of grid vertex column `i` of the tile
centered at `centerEast`: the mesh is translated by the tile center, so a
tile spans `center ± 5000` (this is also how
`getGroundElevationAtPosition` in src/unnamed/part_000 locates the tile
containing a position). -/
def vertexWorldEast (centerEast : ℚ) (i : Fin 33) : ℚ :=
  centerEast + planeLocalX i

/-- World (planar) north coordinate of grid vertex row `j` of the tile
centered at `centerNorth`. -/
def vertexWorldNorth (centerNorth : ℚ) (j : Fin 33) : ℚ :=
  centerNorth + planeLocalY j

/-! ## Helper lemmas -/

/-- Execution path of `getElevationAtUTM`: cache hit. -/
theorem getElev_hit {s : ElevState} {e n v : ℚ} (avail : Bool)
    (provider : Nat → Option ℚ)
    (h : lookupElev s.cache (elevKey e n) = some v) :
    getElevationAtUTM avail provider e n s = (v, s) := by
  unfold getElevationAtUTM
  rw [h]

/-- Execution path of `getElevationAtUTM`: cache miss, provider object
absent. -/
theorem getElev_miss_unavail {s : ElevState} {e n : ℚ}
    (provider : Nat → Option ℚ)
    (h : lookupElev s.cache (elevKey e n) = none) :
    getElevationAtUTM false provider e n s = (0, s) := by
  unfold getElevationAtUTM
  rw [h]
  rfl

/-- Execution path of `getElevationAtUTM`: cache miss, provider call
succeeds. -/
theorem getElev_miss_ok {s : ElevState} {e n hv : ℚ}
    {provider : Nat → Option ℚ}
    (h : lookupElev s.cache (elevKey e n) = none)
    (hp : provider s.calls = some hv) :
    getElevationAtUTM true provider e n s =
      (hv, ⟨(elevKey e n, hv) :: s.cache, s.calls + 1⟩) := by
  unfold getElevationAtUTM
  rw [h]
  simp [hp]

/-- Execution path of `getElevationAtUTM`: cache miss, provider call
fails (rejected promise / `catch`). -/
theorem getElev_miss_fail {s : ElevState} {e n : ℚ}
    {provider : Nat → Option ℚ}
    (h : lookupElev s.cache (elevKey e n) = none)
    (hp : provider s.calls = none) :
    getElevationAtUTM true provider e n s =
      (0, { s with calls := s.calls + 1 }) := by
  unfold getElevationAtUTM
  rw [h]
  simp [hp]

/-- Membership in `intRange` is the interval condition. -/
theorem mem_intRange {lo hi x : Int} : x ∈ intRange lo hi ↔ lo ≤ x ∧ x ≤ hi := by
  unfold intRange
  constructor
  · intro hmem
    obtain ⟨k, hk, hkx⟩ := List.mem_map.mp hmem
    rw [List.mem_range] at hk
    omega
  · intro h
    apply List.mem_map.mpr
    refine ⟨(x - lo).toNat, ?_, ?_⟩
    · rw [List.mem_range]
      omega
    · omega

/-- The request loop of `updateCesium` never touches the tracked-tile
map: `createTerrainTile` only adds to the loading set. -/
theorem foldl_createTerrainTile_tiles (l : List (Int × Int)) (s : TerrainState) :
    (l.foldl (fun st p => createTerrainTile st (tileKey p.1 p.2)) s).tiles =
      s.tiles := by
  induction l generalizing s with
  | nil => rfl
  | cons p rest ih =>
    rw [List.foldl_cons, ih]
    unfold createTerrainTile
    split <;> rfl

/-- `insertKey` preserves key uniqueness. -/
theorem insertKey_nodup {l : List (List Char)} (k : List Char)
    (h : l.Nodup) : (insertKey l k).Nodup := by
  unfold insertKey
  split
  · exact h
  · next hk =>
    simpa [List.nodup_append] using ⟨h, hk⟩

/-! ## Claim C4: cache idempotence -/

/-- C4 counterexample: with the provider failing on the first call and
succeeding on the second, two `getElevationAtUTM` calls at the same
coordinates (hence the same quantized cache key) issue **two** external
provider calls and return **different** values (`0`, then `5`).  This
refutes the claim that any two same-key calls issue at most one provider
call and return the same value both times. -/
theorem cache_idempotence_counterexample :
    (getElevationAtUTM true failThenSucceed 1 2
        (getElevationAtUTM true failThenSucceed 1 2 ⟨[], 0⟩).2).2.calls = 2 ∧
    (getElevationAtUTM true failThenSucceed 1 2 ⟨[], 0⟩).1 = 0 ∧
    (getElevationAtUTM true failThenSucceed 1 2
        (getElevationAtUTM true failThenSucceed 1 2 ⟨[], 0⟩).2).1 = 5 := by
  have h1 : getElevationAtUTM true failThenSucceed 1 2 ⟨[], 0⟩ =
      (0, { cache := [], calls := 1 }) :=
    getElev_miss_fail rfl rfl
  have h2 : getElevationAtUTM true failThenSucceed 1 2 ⟨[], 1⟩ =
      (5, ⟨[(elevKey 1 2, 5)], 2⟩) :=
    getElev_miss_ok rfl rfl
  rw [h1]
  exact ⟨by rw [h2], rfl, by rw [h2]⟩

/-- C4 (amended): if the first call leaves the key cached — i.e. it was a
cache hit, or its provider call succeeded — then a second call whose
inputs quantize to the same cache key issues no further provider call and
returns the same elevation value, leaving the state unchanged. -/
theorem cache_idempotence_of_cached (avail : Bool) (provider : Nat → Option ℚ)
    (e n e' n' : ℚ) (s : ElevState)
    (hkey : elevKey e' n' = elevKey e n)
    (hcached : (lookupElev (getElevationAtUTM avail provider e n s).2.cache
        (elevKey e n)).isSome = true) :
    (getElevationAtUTM avail provider e' n'
        (getElevationAtUTM avail provider e n s).2).1 =
      (getElevationAtUTM avail provider e n s).1 ∧
    (getElevationAtUTM avail provider e' n'
        (getElevationAtUTM avail provider e n s).2).2 =
      (getElevationAtUTM avail provider e n s).2 := by
  rcases h1 : lookupElev s.cache (elevKey e n) with _ | v
  · rcases avail with _ | _
    · rw [getElev_miss_unavail provider h1] at hcached
      simp [h1] at hcached
    · rcases hp : provider s.calls with _ | hv
      · rw [getElev_miss_fail h1 hp] at hcached
        simp [h1] at hcached
      · rw [getElev_miss_ok h1 hp]
        have h2 : lookupElev
            ((⟨(elevKey e n, hv) :: s.cache, s.calls + 1⟩ : ElevState)).cache
            (elevKey e' n') = some hv := by
          simp [lookupElev, hkey]
        rw [getElev_hit true provider h2]
        exact ⟨rfl, rfl⟩
  · rw [getElev_hit avail provider h1]
    have h2 : lookupElev s.cache (elevKey e' n') = some v := by
      rw [hkey]
      exact h1
    rw [getElev_hit avail provider h2]
    exact ⟨rfl, rfl⟩

/-- Witness for `cache_idempotence_of_cached` at a concrete input: empty
cache, always-succeeding provider, both calls at `(1, 2)`. -/
theorem cache_idempotence_of_cached_witness :
    (getElevationAtUTM true (fun _ => some 7) 1 2
        (getElevationAtUTM true (fun _ => some 7) 1 2 ⟨[], 0⟩).2).1 =
      (getElevationAtUTM true (fun _ => some 7) 1 2 ⟨[], 0⟩).1 ∧
    (getElevationAtUTM true (fun _ => some 7) 1 2
        (getElevationAtUTM true (fun _ => some 7) 1 2 ⟨[], 0⟩).2).2 =
      (getElevationAtUTM true (fun _ => some 7) 1 2 ⟨[], 0⟩).2 :=
  cache_idempotence_of_cached true (fun _ => some 7) 1 2 1 2 ⟨[], 0⟩
    rfl (by
      rw [@getElev_miss_ok ⟨[], 0⟩ 1 2 7 (fun _ => some 7) rfl rfl]
      simp [lookupElev])

/-! ## Claim C5: sentinel on provider failure -/

/-- C5: on a cache miss, if the external provider is unavailable or its
call fails, `getElevationAtUTM` returns exactly `0` (sea level).  The
embedding is a total function, so the error is not propagated to the
caller (the JS `catch` swallows it). -/
theorem sentinel_on_provider_failure (avail : Bool) (provider : Nat → Option ℚ)
    (e n : ℚ) (s : ElevState)
    (hmiss : lookupElev s.cache (elevKey e n) = none)
    (hfail : avail = false ∨ provider s.calls = none) :
    (getElevationAtUTM avail provider e n s).1 = 0 := by
  rcases hfail with hfail | hfail
  · subst hfail
    rw [getElev_miss_unavail provider hmiss]
  · rcases avail with _ | _
    · rw [getElev_miss_unavail provider hmiss]
    · rw [getElev_miss_fail hmiss hfail]

/-- Witness for `sentinel_on_provider_failure`: empty cache,
always-failing provider. -/
theorem sentinel_on_provider_failure_witness :
    (getElevationAtUTM true (fun _ => none) 3 4 ⟨[], 0⟩).1 = 0 :=
  sentinel_on_provider_failure true (fun _ => none) 3 4 ⟨[], 0⟩
    rfl (Or.inr rfl)

/-! ## Claim C10: failed samples are never cached -/

/-- C10: a failed provider call caches nothing — the sentinel `0` is not
inserted — so an immediately following call with the same quantized key
misses the cache again and issues a fresh provider call (the call counter
advances on both calls). -/
theorem failed_sample_not_cached (provider : Nat → Option ℚ) (e n : ℚ)
    (s : ElevState)
    (hmiss : lookupElev s.cache (elevKey e n) = none)
    (hfail : provider s.calls = none) :
    (getElevationAtUTM true provider e n s).2.cache = s.cache ∧
    (getElevationAtUTM true provider e n s).2.calls = s.calls + 1 ∧
    (getElevationAtUTM true provider e n
        (getElevationAtUTM true provider e n s).2).2.calls = s.calls + 2 := by
  rw [getElev_miss_fail hmiss hfail]
  refine ⟨rfl, rfl, ?_⟩
  have hmiss2 : lookupElev ({ s with calls := s.calls + 1 } : ElevState).cache
      (elevKey e n) = none := hmiss
  rcases hp2 : provider (s.calls + 1) with _ | hv
  · rw [getElev_miss_fail hmiss2 hp2]
  · rw [getElev_miss_ok hmiss2 hp2]

/-- Witness for `failed_sample_not_cached`: empty cache, always-failing
provider. -/
theorem failed_sample_not_cached_witness :
    (getElevationAtUTM true (fun _ => none) 3 4 ⟨[], 0⟩).2.cache = [] ∧
    (getElevationAtUTM true (fun _ => none) 3 4 ⟨[], 0⟩).2.calls = 1 ∧
    (getElevationAtUTM true (fun _ => none) 3 4
        (getElevationAtUTM true (fun _ => none) 3 4 ⟨[], 0⟩).2).2.calls = 2 :=
  failed_sample_not_cached (fun _ => none) 3 4 ⟨[], 0⟩ rfl rfl

/-! ## Claim C3: failure containment -/

/-- C3: if either sub-fetch of a `Loading` tile fails, the tile ends with
`loading = false` and `loaded = false` (the `Unloaded` state), nothing is
added to the scene, and a later `Tile.update` pass that finds the tile
visible enqueues it again (it is eligible for re-load). -/
theorem tile_load_failure_containment (t : TileState) (g tex : Bool)
    (_hloading : t.loading = true) (hloaded : t.loaded = false)
    (hscene : t.inScene = false) (hfail : g = false ∨ tex = false) :
    (tileLoad g tex t).loading = false ∧ (tileLoad g tex t).loaded = false ∧
    (tileLoad g tex t).inScene = false ∧
    (∀ (camX camY far : ℚ) (wf : Bool) (q : List String),
      ((tileLoad g tex t).centerX - camX) * ((tileLoad g tex t).centerX - camX) +
        ((tileLoad g tex t).centerY - camY) * ((tileLoad g tex t).centerY - camY) <
        far * far →
      (tileUpdate camX camY far wf (tileLoad g tex t) q).2 =
        q ++ [(tileLoad g tex t).tileName] ∧
      (tileUpdate camX camY far wf (tileLoad g tex t) q).1.loading = true) := by
  have hload : (tileLoad g tex t).loading = false ∧
      (tileLoad g tex t).loaded = false ∧
      (tileLoad g tex t).inScene = false := by
    rcases hfail with rfl | rfl
    · simp [tileLoad, hloaded, hscene]
    · rcases g with _ | _ <;> simp [tileLoad, hloaded, hscene]
  refine ⟨hload.1, hload.2.1, hload.2.2, ?_⟩
  intro camX camY far wf q hvis
  unfold tileUpdate
  simp [hload.1, hload.2.1, decide_eq_true hvis]

/-- Witness for `tile_load_failure_containment`: a loading tile at the
origin whose geometry fetch fails, then updated with the camera at the
origin and `far = 100`. -/
theorem tile_load_failure_containment_witness :
    (tileLoad false true loadingTileAtOrigin).loading = false ∧
    (tileLoad false true loadingTileAtOrigin).loaded = false ∧
    (tileLoad false true loadingTileAtOrigin).inScene = false ∧
    ((tileUpdate 0 0 100 false (tileLoad false true loadingTileAtOrigin) []).2 =
      [] ++ [(tileLoad false true loadingTileAtOrigin).tileName] ∧
     (tileUpdate 0 0 100 false (tileLoad false true loadingTileAtOrigin) []).1.loading
       = true) := by
  have h := tile_load_failure_containment loadingTileAtOrigin false true
    rfl rfl rfl (Or.inl rfl)
  exact ⟨h.1, h.2.1, h.2.2.1,
    h.2.2.2 0 0 100 false [] (by norm_num [tileLoad, loadingTileAtOrigin])⟩

/-! ## Claim C6: eviction releases all resources -/

/-- C6: evicting a `Loaded` tile (the not-visible branch of
`Tile.update`) removes it from the scene and releases every owned
resource — texture, material, geometry buffers and the bounds tree —
and the tile leaves the `Loaded` state; nothing is enqueued. -/
theorem tile_evict_releases_resources (camX camY far : ℚ) (wf : Bool)
    (t : TileState) (q : List String)
    (hloaded : t.loaded = true) (hnotloading : t.loading = false)
    (hfar : ¬((t.centerX - camX) * (t.centerX - camX) +
      (t.centerY - camY) * (t.centerY - camY) < far * far)) :
    (tileUpdate camX camY far wf t q).1.inScene = false ∧
    (tileUpdate camX camY far wf t q).1.mapLive = false ∧
    (tileUpdate camX camY far wf t q).1.materialLive = false ∧
    (tileUpdate camX camY far wf t q).1.geometryLive = false ∧
    (tileUpdate camX camY far wf t q).1.boundsTreeLive = false ∧
    (tileUpdate camX camY far wf t q).1.loaded = false ∧
    (tileUpdate camX camY far wf t q).2 = q := by
  unfold tileUpdate
  simp [hloaded, hnotloading, decide_eq_false hfar]

/-- Witness for `tile_evict_releases_resources`: a loaded tile at the
origin with all resources live, camera 100000 units away, `far = 50000`. -/
theorem tile_evict_releases_resources_witness :
    (tileUpdate 100000 0 50000 false loadedTileAtOrigin []).1.inScene = false ∧
    (tileUpdate 100000 0 50000 false loadedTileAtOrigin []).1.mapLive = false ∧
    (tileUpdate 100000 0 50000 false loadedTileAtOrigin []).1.materialLive = false ∧
    (tileUpdate 100000 0 50000 false loadedTileAtOrigin []).1.geometryLive = false ∧
    (tileUpdate 100000 0 50000 false loadedTileAtOrigin []).1.boundsTreeLive = false ∧
    (tileUpdate 100000 0 50000 false loadedTileAtOrigin []).1.loaded = false ∧
    (tileUpdate 100000 0 50000 false loadedTileAtOrigin []).2 = [] :=
  tile_evict_releases_resources 100000 0 50000 false loadedTileAtOrigin []
    rfl rfl (by norm_num [loadedTileAtOrigin])

/-! ## Claim C8: sub-fetches and the join at Loaded -/

/-- C8 counterexample: when the geometry fetch fails, no texture request
is ever issued (`Tile.load` starts the KTX2 fetch only inside the GLB
success callback).  This refutes the claim that the geometry and texture
fetches are issued as two independent requests proceeding concurrently:
independent requests would both be issued regardless of the other's
outcome. -/
theorem concurrent_fetch_counterexample :
    LoadEvent.texRequested ∉ loadTrace false true := by
  decide

/-- C8 (amended): the fetches are sequential, not concurrent — the
texture request is issued only after the geometry fetch succeeds (the
first four events of a successful-geometry trace are geometry request,
geometry arrival, bounds-tree start, texture request), and the tile
transitions to `Loaded` exactly when both fetches succeed, with the
texture completion (the later of the two) triggering the single
transition at the end of the trace. -/
theorem load_fetches_sequential_join :
    ∀ g tex : Bool,
      (LoadEvent.setLoaded ∈ loadTrace g tex ↔ g = true ∧ tex = true) ∧
      (LoadEvent.texRequested ∈ loadTrace g tex →
        LoadEvent.geomLoaded ∈ loadTrace g tex) ∧
      (loadTrace true tex).take 4 =
        [LoadEvent.geomRequested, LoadEvent.geomLoaded,
         LoadEvent.bvhRequested, LoadEvent.texRequested] ∧
      ((loadTrace g tex).getLast? = some LoadEvent.setLoaded ↔
        g = true ∧ tex = true) := by
  decide

/-- Witness for `load_fetches_sequential_join`: on the all-success trace,
the texture request is preceded by the geometry arrival. -/
theorem load_fetches_sequential_join_witness :
    LoadEvent.geomLoaded ∈ loadTrace true true :=
  (load_fetches_sequential_join true true).2.1 (by decide)

/-! ## Claim C2: uniqueness and no double-enqueue -/

/-- C2: (1) a creation request for a coordinate already tracked or
loading is a no-op; (2) a tile whose state is `Queued`/`Loading`
(`loading = true`) or `Loaded` is never pushed to the fetch queue by
`Tile.update`; (3) `createTerrainTile` and `finishTerrainTile` preserve
uniqueness of tracked-tile keys; (4) a full `CesiumTerrain.update` pass
preserves uniqueness of tracked-tile keys. -/
theorem uniqueness_and_no_double_enqueue :
    (∀ (s : TerrainState) (key : List Char),
      key ∈ s.tiles ∨ key ∈ s.loadingTiles → createTerrainTile s key = s) ∧
    (∀ (camX camY far : ℚ) (wf : Bool) (t : TileState) (q : List String),
      t.loading = true ∨ t.loaded = true →
      (tileUpdate camX camY far wf t q).2 = q) ∧
    (∀ (s : TerrainState) (key : List Char) (ok : Bool),
      s.tiles.Nodup →
      (createTerrainTile s key).tiles.Nodup ∧
      (finishTerrainTile s key ok).tiles.Nodup) ∧
    (∀ (camE camN far : ℚ) (s : TerrainState),
      s.tiles.Nodup → (updateCesium camE camN far s).tiles.Nodup) := by
  refine ⟨?_, ?_, ?_, ?_⟩
  · intro s key h
    unfold createTerrainTile
    rw [if_pos h]
  · intro camX camY far wf t q h
    unfold tileUpdate
    rcases h with h | h
    · rcases hl : t.loaded with _ | _ <;> simp [h, hl]
    · simp [h]
  · intro s key ok h
    constructor
    · unfold createTerrainTile
      split <;> exact h
    · unfold finishTerrainTile
      rcases ok with _ | _
      · exact h
      · exact insertKey_nodup key h
  · intro camE camN far s h
    have heq : (updateCesium camE camN far s).tiles =
        (((loadPass camE camN (min far 50000) 12750).foldl
          (fun st p => createTerrainTile st (tileKey p.1 p.2)) s).tiles).filter
          (fun key => !evictCond camE camN (min far 50000) key) := rfl
    rw [heq, foldl_createTerrainTile_tiles]
    exact h.filter _

/-- Witness for `uniqueness_and_no_double_enqueue`, instantiating each
conjunct at a concrete state. -/
theorem uniqueness_and_no_double_enqueue_witness :
    createTerrainTile ⟨[['a']], [], [['a']]⟩ ['a'] = ⟨[['a']], [], [['a']]⟩ ∧
    (tileUpdate 0 0 100 false loadedTileAtOrigin []).2 = [] ∧
    ((createTerrainTile ⟨[['a']], [], [['a']]⟩ ['b']).tiles.Nodup ∧
     (finishTerrainTile ⟨[['a']], [], [['a']]⟩ ['b'] true).tiles.Nodup) ∧
    (updateCesium 0 0 0 ⟨[['a']], [], [['a']]⟩).tiles.Nodup := by
  refine ⟨?_, ?_, ?_, ?_⟩
  · exact uniqueness_and_no_double_enqueue.1 _ _ (Or.inl (by simp))
  · exact uniqueness_and_no_double_enqueue.2.1 0 0 100 false
      loadedTileAtOrigin [] (Or.inr rfl)
  · exact uniqueness_and_no_double_enqueue.2.2.1 _ _ _ (by simp)
  · exact uniqueness_and_no_double_enqueue.2.2.2 0 0 0 _ (by simp)

/-! ## Claim C7: visibility enumeration -/

/-- C7: one `update` pass requests exactly the candidate tiles of the
square neighborhood `±⌈viewDistance / tileSize⌉` around the center tile
(each camera axis rounded to the nearest multiple of `tileSize`) whose
Euclidean distance from the viewpoint is strictly less than
`viewDistance`; for `viewDistance = 2500`, `tileSize = 1000` and the
viewpoint at the origin this yields 21 tiles. -/
theorem visibility_enumeration :
    (∀ (camE camN viewDistance : ℚ) (tileSize : Int) (p : Int × Int),
      p ∈ loadPass camE camN viewDistance tileSize ↔
      ∃ dx dy : Int,
        -⌈viewDistance / (tileSize : ℚ)⌉ ≤ dx ∧
        dx ≤ ⌈viewDistance / (tileSize : ℚ)⌉ ∧
        -⌈viewDistance / (tileSize : ℚ)⌉ ≤ dy ∧
        dy ≤ ⌈viewDistance / (tileSize : ℚ)⌉ ∧
        p.1 = jsRound (camE / (tileSize : ℚ)) * tileSize + dx * tileSize ∧
        p.2 = jsRound (camN / (tileSize : ℚ)) * tileSize + dy * tileSize ∧
        0 < viewDistance ∧
        ((p.1 : ℚ) - camE) ^ 2 + ((p.2 : ℚ) - camN) ^ 2 < viewDistance ^ 2) ∧
    (loadPass 0 0 2500 1000).length = 21 := by
  constructor
  · intro camE camN D S p
    unfold loadPass
    simp only [List.mem_flatMap, List.mem_filterMap, mem_intRange]
    constructor
    · rintro ⟨dy, ⟨hdy1, hdy2⟩, dx, ⟨hdx1, hdx2⟩, hif⟩
      simp only [Option.ite_none_right_eq_some, Option.some.injEq] at hif
      obtain ⟨⟨hD, hdist⟩, heq⟩ := hif
      refine ⟨dx, dy, hdx1, hdx2, hdy1, hdy2, ?_, ?_, hD, ?_⟩
      · rw [← heq]
      · rw [← heq]
      · rw [← heq]
        exact hdist
    · rintro ⟨dx, dy, hdx1, hdx2, hdy1, hdy2, he, hn, hD, hdist⟩
      refine ⟨dy, ⟨hdy1, hdy2⟩, dx, ⟨hdx1, hdx2⟩, ?_⟩
      simp only [Option.ite_none_right_eq_some, Option.some.injEq]
      refine ⟨⟨hD, ?_⟩, ?_⟩
      · rw [← he, ← hn]
        exact hdist
      · symm
        rw [Prod.ext_iff]
        exact ⟨he, hn⟩
  · have hceil : (⌈(5 : ℚ) / 2⌉ : Int) = 3 := by
      norm_num [Int.ceil_eq_iff]
    have hround : jsRound 0 = 0 := by
      norm_num [jsRound]
    have hrange : intRange (-3) 3 = [-3, -2, -1, 0, 1, 2, 3] := by decide
    unfold loadPass
    norm_num [hceil, hround, hrange, Function.comp, List.flatMap_cons,
      List.flatMap_nil, List.filterMap_cons, List.filterMap_nil]

/-- Witness for `visibility_enumeration`: the center tile itself is
requested for the example viewpoint. -/
theorem visibility_enumeration_witness :
    ((0, 0) : Int × Int) ∈ loadPass 0 0 2500 1000 := by
  have hc : (⌈(5 : ℚ) / 2⌉ : Int) = 3 := by
    norm_num [Int.ceil_eq_iff]
  refine (visibility_enumeration.1 0 0 2500 1000 (0, 0)).mpr
    ⟨0, 0, ?_, ?_, ?_, ?_, ?_, ?_, ?_, ?_⟩ <;>
    norm_num [hc, jsRound]

/-! ## Claim C1: eviction hysteresis (key-parse bug) -/

/--
C1 evaluated at the failing input: the tracked tile with key
`"12750--12750"` (grid center `(12750, -12750)`) survives the eviction
pass with the camera at `(12750, 62300)` and view distance `50000`
(first conjunct: the code keeps it), even though its true squared planar
distance `75050²` exceeds `(1.5 × 50000)² = 75000²` (second conjunct:
the claim requires eviction).  The cause: the eviction loop re-derives
coordinates via `key.split('-').map(Number)`, which turns
`"12750--12750"` into segments `["12750", "", "12750"]` and hence the
pair `(12750, 0)` (`Number("") = 0`), whose distance from the camera is
only `62300`.
-/
theorem eviction_key_parse_bug :
    (evictPass 12750 62300 50000 [tileKey 12750 (-12750)]).1 =
      [tileKey 12750 (-12750)] ∧
    ((50000 : ℚ) * 1.5) ^ 2 <
      ((12750 : ℚ) - 12750) ^ 2 + ((-12750 : ℚ) - 62300) ^ 2 := by
  constructor
  · have hsplit : splitOnDash (tileKey 12750 (-12750)) =
        [['1', '2', '7', '5', '0'], [], ['1', '2', '7', '5', '0']] := by decide
    have hparse : parseTileKey (tileKey 12750 (-12750)) = (12750, 0) := by
      unfold parseTileKey
      rw [hsplit]
      unfold jsNumSeg
      simp only [List.getD_cons_zero, List.getD_cons_succ]
      rw [show natOfDigits ['1', '2', '7', '5', '0'] = 12750 from by decide,
          show natOfDigits [] = 0 from rfl]
      norm_num
    have hcond : evictCond 12750 62300 50000 (tileKey 12750 (-12750)) = false := by
      unfold evictCond
      rw [hparse]
      simp only [Bool.or_eq_false_iff, decide_eq_false_iff_not]
      norm_num
    unfold evictPass
    simp [List.filter, hcond]
  · norm_num

/-! ## Claim C9: closed-form height in the simplified variant -/

/-- C9 counterexample: on the `SimpleTerrain` tile centered at
`(10000, 0)`, the grid vertex `(i, j) = (19, 13)` (tile-local position
`(937.5, 937.5)`, world position `(10937.5, 937.5)`) has mesh height
`200·sin(5/16)² + 500`, while `getElevationAtUTM` at the vertex's world
position returns `200·sin(175/48)·sin(5/16) + 500`.  These differ —
`sin(5/16) > 0 > sin(175/48)` — because the mesh height is computed from
tile-local coordinates, not world coordinates, so the claimed agreement
between mesh heights and queried elevations fails off the origin tile. -/
theorem simple_height_world_mismatch :
    simpleVertexHeight 10000 0 19 13 ≠
      simpleGetElevationAtUTM ((vertexWorldEast 10000 19 : ℚ) : ℝ)
        ((vertexWorldNorth 0 13 : ℚ) : ℝ) := by
  have hlx : planeLocalX 19 = 1875 / 2 := by
    unfold planeLocalX
    rw [show ((19 : Fin 33) : ℕ) = 19 from rfl]
    norm_num
  have hly : planeLocalY 13 = 1875 / 2 := by
    unfold planeLocalY
    rw [show ((13 : Fin 33) : ℕ) = 13 from rfl]
    norm_num
  have hwx : vertexWorldEast 10000 19 = 21875 / 2 := by
    unfold vertexWorldEast
    rw [hlx]
    norm_num
  have hwy : vertexWorldNorth 0 13 = 1875 / 2 := by
    unfold vertexWorldNorth
    rw [hly]
    norm_num
  unfold simpleVertexHeight simpleGetElevationAtUTM simpleHeight
  rw [hlx, hly, hwx, hwy]
  have hcast1 : (((1875 / 2 : ℚ) : ℝ)) / 3000 = 5 / 16 := by
    norm_num
  have hcast2 : (((21875 / 2 : ℚ) : ℝ)) / 3000 = 175 / 48 := by
    norm_num
  rw [hcast1, hcast2]
  have hs1 : 0 < Real.sin (5 / 16) := by
    apply Real.sin_pos_of_pos_of_lt_pi
    · norm_num
    · have h3 := Real.pi_gt_three
      linarith
  have hs2 : Real.sin (175 / 48) < 0 := by
    have hsub := Real.sin_sub_pi (175 / 48 : ℝ)
    have hpos : 0 < Real.sin ((175 / 48 : ℝ) - Real.pi) := by
      apply Real.sin_pos_of_pos_of_lt_pi
      · have hlt := Real.pi_lt_d2
        norm_num at hlt ⊢
        linarith
      · have h3 := Real.pi_gt_three
        linarith
    linarith
  intro h
  nlinarith [hs1, hs2, h]

/-- C9 (amended): every grid vertex's final height is the fixed periodic
function applied to the vertex's *tile-local* planar coordinates (the
same height pattern repeats on every tile), `getElevationAtUTM` evaluates
the same function at *world* coordinates, and the two agree on the tile
centered at the origin, where local and world coordinates coincide. -/
theorem simple_height_local_form :
    (∀ (cE cN : ℚ) (i j : Fin 33),
      simpleVertexHeight cE cN i j =
        simpleHeight ((planeLocalX i : ℚ) : ℝ) ((planeLocalY j : ℚ) : ℝ)) ∧
    (∀ e n : ℝ, simpleGetElevationAtUTM e n = simpleHeight e n) ∧
    (∀ i j : Fin 33,
      simpleVertexHeight 0 0 i j =
        simpleGetElevationAtUTM ((vertexWorldEast 0 i : ℚ) : ℝ)
          ((vertexWorldNorth 0 j : ℚ) : ℝ)) := by
  refine ⟨fun _ _ _ _ => rfl, fun _ _ => rfl, fun i j => ?_⟩
  unfold simpleVertexHeight simpleGetElevationAtUTM vertexWorldEast vertexWorldNorth
  norm_num

end TerrainProof
